import Mathlib

/-!
Verification of the library_catalog service against its specification.

The Python source is shallowly embedded: the SQLAlchemy table `books` becomes a
`List Book` kept in insertion order (`created_at` is assigned from a caller-supplied
monotone clock), UUIDs become `Nat`, timestamps become `Nat`, and each service
operation becomes a pure function threading the committed database state
explicitly.  Python-level dynamic failures that the source can actually hit
(a constructor called with the wrong arity, an attribute lookup on a name that
does not exist) are embedded as explicit error values, since they are part of
the observable behaviour of the program.
-/

namespace LibraryCatalog

/-- The supplementary-metadata blob produced by enrichment (`extra` JSON column):
an opaque key/value map, embedded as an association list. -/
abbrev Extra := List (String × String)

/-- Embeds the ORM model `Book` (data/models/book.py): one row of the `books`
table.  `book_id` is the UUID primary key, `created_at`/`updated_at` the
timestamp columns (`default=datetime.utcnow`, `onupdate=datetime.utcnow`). -/
structure Book where
  book_id : Nat
  title : String
  author : String
  year : Int
  genre : String
  pages : Int
  isbn : Option String
  description : Option String
  extra : Option Extra
  available : Bool
  created_at : Nat
  updated_at : Nat
deriving Repr, DecidableEq

/-- Python truthiness of an optional string argument: `if title:` runs the
guarded statement only when the value is present and non-empty. -/
def truthyStr : Option String → Bool
  | none => false
  | some s => !(s == "")

/-- Python truthiness of an optional integer argument: `if year:` runs the
guarded statement only when the value is present and non-zero. -/
def truthyInt : Option Int → Bool
  | none => false
  | some n => !(n == 0)

/-- Embeds the SQL predicate `column ILIKE '%needle%'`: case-insensitive
substring containment of `needle` in `hay`, realised by lowercasing both
character sequences. -/
def ilikeContains (hay needle : String) : Bool :=
  decide (List.IsInfix (needle.data.map Char.toLower) (hay.data.map Char.toLower))

/-- The WHERE clause built by `BookRepository.find_by_filters` and
`BookRepository.count_by_filters` (data/repositories/book_repository.py):
each filter is applied only when its argument is Python-truthy
(`if title:`, `if author:`, `if genre:`, `if year:`), except `available`,
which is applied whenever it `is not None`.  Title and author use a
case-insensitive substring `ilike`, the rest exact equality. -/
def matchesFilters (title author genre : Option String) (year : Option Int)
    (available : Option Bool) (b : Book) : Bool :=
  (if truthyStr title then ilikeContains b.title (title.getD "") else true) &&
  (if truthyStr author then ilikeContains b.author (author.getD "") else true) &&
  (if truthyStr genre then b.genre == genre.getD "" else true) &&
  (if truthyInt year then b.year == year.getD 0 else true) &&
  (match available with
   | none => true
   | some av => b.available == av)

/-- Insert a book into a list that is already sorted by `created_at`
descending, keeping it sorted. -/
def insertDesc (b : Book) : List Book → List Book
  | [] => [b]
  | c :: cs => if c.created_at ≤ b.created_at then b :: c :: cs else c :: insertDesc b cs

/-- Embeds `ORDER BY created_at DESC` as an insertion sort on the row set. -/
def orderByCreatedDesc : List Book → List Book
  | [] => []
  | b :: bs => insertDesc b (orderByCreatedDesc bs)

/-- Embeds `BookRepository.find_by_filters`: WHERE the filters, ORDER BY
`created_at` descending, then OFFSET `offset` and LIMIT `limit`. -/
def find_by_filters (books : List Book) (title author genre : Option String)
    (year : Option Int) (available : Option Bool) (limit offset : Nat) : List Book :=
  (((orderByCreatedDesc (books.filter
      (matchesFilters title author genre year available))).drop offset).take limit)

/-- Embeds `BookRepository.count_by_filters`: COUNT of the rows matching the
same WHERE clause, with no pagination. -/
def count_by_filters (books : List Book) (title author genre : Option String)
    (year : Option Int) (available : Option Bool) : Nat :=
  (books.filter (matchesFilters title author genre year available)).length

/-- Embeds `BookRepository.find_by_isbn`: exact-match lookup.  The `isbn`
column carries a unique constraint, so `scalar_one_or_none` is a first-match
search. -/
def find_by_isbn (books : List Book) (isbn : String) : Option Book :=
  books.find? (fun b => b.isbn == some isbn)

/-- Embeds `BaseRepository.get_by_id`: point lookup on the primary key. -/
def get_by_id (books : List Book) (id : Nat) : Option Book :=
  books.find? (fun b => b.book_id == id)

/-- Embeds `BaseRepository.create`: stage a new row whose primary key is the
freshly generated UUID `freshId` and whose two timestamp columns are both set
to the insertion instant `now`; returns the new row set and the new row. -/
def repo_create (books : List Book) (freshId now : Nat) (title author : String)
    (year : Int) (genre : String) (pages : Int) (isbn description : Option String)
    (available : Bool) (extra : Option Extra) : List Book × Book :=
  let b : Book :=
    { book_id := freshId, title := title, author := author, year := year,
      genre := genre, pages := pages, isbn := isbn, description := description,
      extra := extra, available := available, created_at := now, updated_at := now }
  (books ++ [b], b)

/-- One keyword argument of `BaseRepository.update(id, **kwargs)`.  A key that
names a column of `Book` carries a value of that column type; any other key is
`unknown` (for it, `hasattr(instance, key)` is false and the assignment is
skipped). -/
inductive FieldAssign where
  | title (v : String)
  | author (v : String)
  | year (v : Int)
  | genre (v : String)
  | pages (v : Int)
  | isbn (v : Option String)
  | description (v : Option String)
  | available (v : Bool)
  | extra (v : Option Extra)
  | unknown (key : String)
deriving Repr, DecidableEq

/-- Embeds the loop body `if hasattr(instance, key): setattr(instance, key, value)`. -/
def setField (b : Book) : FieldAssign → Book
  | .title v => { b with title := v }
  | .author v => { b with author := v }
  | .year v => { b with year := v }
  | .genre v => { b with genre := v }
  | .pages v => { b with pages := v }
  | .isbn v => { b with isbn := v }
  | .description v => { b with description := v }
  | .available v => { b with available := v }
  | .extra v => { b with extra := v }
  | .unknown _ => b

/-- Apply all keyword arguments in order. -/
def applyFields (b : Book) (fields : List FieldAssign) : Book :=
  fields.foldl setField b

/-- Embeds `BaseRepository.update`: fetch by id (`None` on miss), assign the
supplied fields, flush.  The flush emits an UPDATE, so the `onupdate` hook sets
`updated_at` to the current instant `now`.  The primary key makes the id unique,
so replacing every row with that id replaces exactly the fetched one. -/
def repo_update (books : List Book) (id : Nat) (fields : List FieldAssign)
    (now : Nat) : Option (List Book × Book) :=
  match get_by_id books id with
  | none => none
  | some b =>
    let b2 : Book := { applyFields b fields with updated_at := now }
    some (books.map (fun c => if c.book_id == id then b2 else c), b2)

/-- The create/update request payload (`BookCreate` pydantic schema).  The
api/v1 variant carries an `available` field defaulting to true; the domain
variant has no such field (the column default true is used instead). -/
structure BookCreate where
  title : String
  author : String
  year : Int
  genre : String
  pages : Int
  isbn : Option String := none
  description : Option String := none
  available : Bool := true
deriving Repr, DecidableEq

/-- The external representation returned by the service
(api/v1/schemas/book.py `BookResponse`, produced by
`BookMapper.model_to_response`; it carries no `extra` field). -/
structure BookResponse where
  book_id : Nat
  title : String
  author : String
  year : Int
  genre : String
  pages : Int
  isbn : Option String
  description : Option String
  available : Bool
  created_at : Nat
  updated_at : Nat
deriving Repr, DecidableEq

/-- Every error the embedded service layer can surface.  The first six embed
the exception classes of domain/exceptions.py; the last two embed Python
runtime errors that the source code can actually raise: `pyTypeError` for a
constructor call with missing required positional arguments, and
`pyAttributeError` for an attribute lookup that fails. -/
inductive SvcError where
  | notFound (id : Nat)
  | alreadyExists (title author : String) (year : Int)
  | invalidYear (year : Int)
  | invalidPages (pages : Int)
  | notAvailable (id : Nat)
  | serviceError (msg : String)
  | pyTypeError (msg : String)
  | pyAttributeError (msg : String)
deriving Repr, DecidableEq

/-- A Python value passed as a positional argument to an exception constructor. -/
inductive PyVal where
  | str (s : String)
  | int (i : Int)
  | pyNone
deriving Repr, DecidableEq

/-- Embeds the expression `BookAlreadyExistsException(*args)`.  The class
(domain/exceptions.py, lines 29-37) declares
`def init(self, title: str, author: str, year: int, details=None)`, so a call
binding fewer than the three required positional parameters raises `TypeError`
before any exception object exists. -/
def raiseBookAlreadyExists (args : List PyVal) : SvcError :=
  match args with
  | .str t :: .str a :: .int y :: _ => .alreadyExists t a y
  | _ => .pyTypeError "BookAlreadyExistsException missing required positional arguments author and year"

/-- Embeds `BookMapper.model_to_response` (domain/mappers/book_mapper.py):
field-by-field copy of the row into the response schema, which has no `extra`
slot. -/
def model_to_response (b : Book) : BookResponse :=
  { book_id := b.book_id, title := b.title, author := b.author, year := b.year,
    genre := b.genre, pages := b.pages, isbn := b.isbn,
    description := b.description, available := b.available,
    created_at := b.created_at, updated_at := b.updated_at }

/-- The message of the `AttributeError` raised by the lookup
`BookMapper.to_response`. -/
def toResponseMissingMsg : String :=
  "type object BookMapper has no attribute to_response"

/-- Embeds the expression `BookMapper.to_response(book)` appearing in
domain/services/book_service.py.  The mapper class defines `create_to_model`,
`update_to_model`, `model_to_response`, `models_to_responses` and
`validate_book_year` but no `to_response`, so the attribute lookup itself
raises `AttributeError`, whatever the argument is. -/
def BookMapper_to_response (_b : Book) : Except SvcError BookResponse :=
  .error (.pyAttributeError toResponseMissingMsg)

/-- Outcome of one call to `OpenLibraryClient.enrich` as seen by the service:
either it returns a (possibly empty) metadata map, or it raises
`OpenLibraryTimeoutException`, or it raises `OpenLibraryException`. -/
inductive EnrichOutcome where
  | ok (data : Extra)
  | timeout
  | apiError
deriving Repr, DecidableEq

/-- Embeds `BookService.enrich_book_data` (both service variants): the two
OpenLibrary errors are caught and logged, yielding `None`; a successful call
returns `extra if extra else None`, so an empty map also yields `None`. -/
def enrich_book_data (o : EnrichOutcome) : Option Extra :=
  match o with
  | .ok d => if d.isEmpty then none else some d
  | .timeout => none
  | .apiError => none

/-- Embeds `BookService.create_book` of domain/services/book_service.py (the
UUID-keyed, service-owns-commit variant wired into the API router).  Steps:
validate the year (`validate_book_data` checks only the year), check ISBN
uniqueness when the ISBN is truthy, enrich, stage the row, commit, then map the
row through `BookMapper.to_response`.  The result pairs the outcome with the
committed table state: on an error raised before the commit the table is
unchanged (the staged row is rolled back with the session). -/
def create_book_v1 (nowYear : Int) (now freshId : Nat) (enrich : EnrichOutcome)
    (books : List Book) (d : BookCreate) : Except SvcError BookResponse × List Book :=
  if d.year < 1000 ∨ nowYear < d.year then
    (.error (.invalidYear d.year), books)
  else if truthyStr d.isbn && (find_by_isbn books (d.isbn.getD "")).isSome then
    (.error (raiseBookAlreadyExists [PyVal.str (d.isbn.getD "")]), books)
  else
    let extra := enrich_book_data enrich
    let res := repo_create books freshId now d.title d.author d.year d.genre
      d.pages d.isbn d.description true extra
    (BookMapper_to_response res.2, res.1)

/-- First `year` keyword among the update fields: the value of
`book_data.year` when the update sets it. -/
def updateYearValue : List FieldAssign → Option Int
  | [] => none
  | .year y :: _ => some y
  | _ :: fs => updateYearValue fs

/-- Continuation of `update_book_v1` after the lookup and year validation:
the repository update runs against the table state at that instant, the commit
runs only `if updated:`, and the return expression looks up
`BookMapper.to_response`, which does not exist. -/
def update_book_v1_rest (now : Nat) (booksAtUpdate : List Book) (id : Nat)
    (fields : List FieldAssign) : Except SvcError BookResponse × List Book :=
  match repo_update booksAtUpdate id fields now with
  | some res => (BookMapper_to_response res.2, res.1)
  | none => (.error (.pyAttributeError toResponseMissingMsg), booksAtUpdate)

/-- Embeds `BookService.update_book` of domain/services/book_service.py.
Each `await` is a suspension point, so the table seen by the initial lookup
(`booksAtLookup`) may differ from the table seen by the repository update
(`booksAtUpdate`); quantifying over both states embeds the race the claim is
about. -/
def update_book_v1 (nowYear : Int) (now : Nat) (booksAtLookup booksAtUpdate : List Book)
    (id : Nat) (fields : List FieldAssign) : Except SvcError BookResponse × List Book :=
  match get_by_id booksAtLookup id with
  | none => (.error (.notFound id), booksAtUpdate)
  | some _ =>
    match updateYearValue fields with
    | some y =>
      if y < 1000 ∨ nowYear < y then (.error (.invalidYear y), booksAtUpdate)
      else update_book_v1_rest now booksAtUpdate id fields
    | none => update_book_v1_rest now booksAtUpdate id fields

/-- Embeds `BookService.create_book` of domain/services/book_service_v2.py:
validate year then pages, reject when `find_by_filters(title, author, year,
limit=1)` is non-empty, enrich, build the model (attaching the metadata only
when truthy) and stage it, then map through `model_to_response` (which exists
in this variant). -/
def create_book_v2 (nowYear : Int) (now freshId : Nat) (enrich : EnrichOutcome)
    (books : List Book) (d : BookCreate) : Except SvcError (List Book × BookResponse) :=
  if d.year < 1000 ∨ nowYear < d.year then
    .error (.invalidYear d.year)
  else if d.pages ≤ 0 then
    .error (.invalidPages d.pages)
  else if !(find_by_filters books (some d.title) (some d.author) none (some d.year)
      none 1 0).isEmpty then
    .error (.alreadyExists d.title d.author d.year)
  else
    let extra := enrich_book_data enrich
    let res := repo_create books freshId now d.title d.author d.year d.genre
      d.pages d.isbn d.description d.available extra
    .ok (res.1, model_to_response res.2)

/-- Embeds `BookService.mark_book_as_unavailable` of book_service_v2.py: fetch
(not-found on miss), raise the availability conflict when the book is already
unavailable, otherwise update `available=False`.  A vanished row inside
`repo_update` would surface as the generic `ServiceException` of the
catch-all handler. -/
def mark_book_as_unavailable (books : List Book) (now : Nat) (id : Nat) :
    Except SvcError (List Book × BookResponse) :=
  match get_by_id books id with
  | none => .error (.notFound id)
  | some b =>
    if !b.available then .error (.notAvailable id)
    else
      match repo_update books id [.available false] now with
      | some res => .ok (res.1, model_to_response res.2)
      | none => .error (.serviceError "Failed to mark book as unavailable")

/-- Embeds `BookService.mark_book_as_available` of book_service_v2.py: fetch
(not-found on miss), then update `available=True` unconditionally. -/
def mark_book_as_available (books : List Book) (now : Nat) (id : Nat) :
    Except SvcError (List Book × BookResponse) :=
  match get_by_id books id with
  | none => .error (.notFound id)
  | some _ =>
    match repo_update books id [.available true] now with
    | some res => .ok (res.1, model_to_response res.2)
    | none => .error (.serviceError "Failed to mark book as available")

/-- What the network delivers for one HTTP attempt: either the request times
out, or a response with a status code and a body arrives. -/
inductive NetEvent where
  | timeout
  | response (status : Nat) (body : String)
deriving Repr, DecidableEq

/-- The error raised out of `BaseApiClient.request`: the propagated
`httpx.TimeoutException` or the `httpx.HTTPStatusError` of the given status. -/
inductive ReqError where
  | timeout
  | httpStatus (status : Nat)
deriving Repr, DecidableEq

/-- Result of `BaseApiClient.request`: a JSON body, a raised error, or the
`None` Python returns when the for-loop runs zero iterations (`retries = 0`). -/
inductive ReqOutcome where
  | ok (body : String)
  | err (e : ReqError)
  | fellThrough
deriving Repr, DecidableEq

/-- httpx `raise_for_status` raises for every non-2xx status. -/
def isSuccessStatus (status : Nat) : Bool :=
  200 ≤ status && status < 300

/-- Embeds the loop `for attempt in range(retries)` of `BaseApiClient.request`
(external/base/base_client.py), from iteration `attempt` on, with `fuel`
iterations left (`fuel = retries - attempt`).  A timeout on any attempt other
than the last sleeps `backoff * 2 ** attempt` and retries; a timeout on the
last attempt re-raises.  An HTTP error status of 500 or more with
`attempt < retries - 1` sleeps the same backoff and retries; every other HTTP
error status re-raises at once.  The comparisons against `retries - 1` are
over ℤ, as in Python.  The second component collects the sleeps performed. -/
def requestLoop (events : Nat → NetEvent) (retries : Nat) (backoff : ℚ) :
    Nat → Nat → ReqOutcome × List ℚ
  | _, 0 => (.fellThrough, [])
  | attempt, fuel + 1 =>
    match events attempt with
    | .response status body =>
      if isSuccessStatus status then (.ok body, [])
      else if 500 ≤ status && ((attempt : Int) < (retries : Int) - 1) then
        let r := requestLoop events retries backoff (attempt + 1) fuel
        (r.1, backoff * 2 ^ attempt :: r.2)
      else (.err (.httpStatus status), [])
    | .timeout =>
      if (attempt : Int) = (retries : Int) - 1 then (.err .timeout, [])
      else
        let r := requestLoop events retries backoff (attempt + 1) fuel
        (r.1, backoff * 2 ^ attempt :: r.2)

/-- Embeds `BaseApiClient.request`: run the attempt loop from attempt 0.
`OpenLibraryClient` instantiates the client with `retries=2, backoff=0.5`. -/
def request (events : Nat → NetEvent) (retries : Nat) (backoff : ℚ) :
    ReqOutcome × List ℚ :=
  requestLoop events retries backoff 0 retries

/-- An attempt outcome the loop retries: a timeout or a status of 500 or more. -/
def retryableEvent : NetEvent → Bool
  | .timeout => true
  | .response status _ => 500 ≤ status

/-- The error surfaced when the given event hits the final attempt. -/
def finalFailure : NetEvent → ReqOutcome
  | .timeout => .err .timeout
  | .response status _ => .err (.httpStatus status)

/-!  Specification-side definitions and concrete fixtures. -/

/-- The filter semantics as the specification words them: title and author by
case-insensitive substring, genre, year and availability by exact match; a
missing filter matches everything.  (Unlike `matchesFilters`, nothing here
skips degenerate values.) -/
def specMatches (title author genre : Option String) (year : Option Int)
    (available : Option Bool) (b : Book) : Bool :=
  (match title with
   | none => true
   | some t => ilikeContains b.title t) &&
  (match author with
   | none => true
   | some a => ilikeContains b.author a) &&
  (match genre with
   | none => true
   | some g => b.genre == g) &&
  (match year with
   | none => true
   | some y => b.year == y) &&
  (match available with
   | none => true
   | some av => b.available == av)

/-- Fixture builder: a fully populated row. -/
def mkBook (id : Nat) (t a : String) (y : Int) (g : String) (p : Int)
    (isbn : Option String) (avail : Bool) (created : Nat) : Book :=
  { book_id := id, title := t, author := a, year := y, genre := g, pages := p,
    isbn := isbn, description := none, extra := none, available := avail,
    created_at := created, updated_at := created }

def bookA : Book := mkBook 1 "A" "author one" 2001 "genre" 100 none true 1
def bookB : Book := mkBook 2 "B" "author two" 2002 "genre" 100 none true 2
def bookC : Book := mkBook 3 "C" "author three" 2003 "genre" 100 none true 3
def bookD : Book := mkBook 4 "D" "author four" 2004 "genre" 100 none true 4
def bookE : Book := mkBook 5 "E" "author five" 2005 "genre" 100 none true 5

/-- Five books inserted in order A, B, C, D, E. -/
def fiveBooks : List Book := [bookA, bookB, bookC, bookD, bookE]

/-- The catalog for the duplicate-check scenarios: one existing book. -/
def warAndPeace : Book :=
  mkBook 1 "War and Peace" "Leo Tolstoy" 1869 "Novel" 1225 none true 1

/-- A create request whose title strictly contains the existing title
"War and Peace" as a substring, with the same author and year. -/
def containingTitleRequest : BookCreate :=
  { title := "The War and Peace Anthology", author := "Leo Tolstoy",
    year := 1869, genre := "Novel", pages := 300 }

/-- The catalog for the duplicate-ISBN scenario: one book holding the ISBN. -/
def isbnHolder : Book :=
  mkBook 1 "First" "Author One" 2000 "genre" 10 (some "9785389062560") true 1

/-- A create request supplying the ISBN already held by `isbnHolder`. -/
def duplicateIsbnRequest : BookCreate :=
  { title := "Second", author := "Author Two", year := 2001, genre := "genre",
    pages := 20, isbn := some "9785389062560" }

/-- A well-formed create request with an ISBN, used for the enrichment
scenarios. -/
def enrichmentRequest : BookCreate :=
  { title := "Dune", author := "Frank Herbert", year := 1965,
    genre := "SciFi", pages := 412, isbn := some "9780441172719" }

/-- The row `create_book_v1` commits for `enrichmentRequest` when enrichment
yields no metadata (clock 5, fresh id 42): `extra` is absent. -/
def enrichmentStoredRow : Book :=
  { book_id := 42, title := "Dune", author := "Frank Herbert", year := 1965,
    genre := "SciFi", pages := 412, isbn := some "9780441172719",
    description := none, extra := none, available := true,
    created_at := 5, updated_at := 5 }

/-- The book present at the lookup step of the update race. -/
def racedBook : Book := mkBook 7 "Raced" "Somebody" 1900 "genre" 10 none true 1

/-- A create request dated one year into the future (current year 2026). -/
def futureYearRequest : BookCreate :=
  { title := "T", author := "A", year := 2027, genre := "G", pages := 100 }

/-- A create request with a zero page count and a valid year. -/
def zeroPagesRequest : BookCreate :=
  { title := "T", author := "A", year := 2020, genre := "G", pages := 0 }

/-- A create request whose title and author are substrings (up to case) of the
existing book `warAndPeace`, with the same year. -/
def containedTitleRequest : BookCreate :=
  { title := "war AND Peace", author := "Tolstoy", year := 1869,
    genre := "Novel", pages := 300 }

/-- Boolean discriminator for `Except`. -/
def exceptOk {ε α : Type} : Except ε α → Bool
  | .ok _ => true
  | .error _ => false

/-!  Helper lemmas about the insertion sort used for `ORDER BY created_at DESC`. -/

theorem mem_insertDesc {x b : Book} : ∀ {l : List Book},
    x ∈ insertDesc b l ↔ x = b ∨ x ∈ l := by
  intro l
  induction l with
  | nil => simp [insertDesc]
  | cons c cs ih =>
    rw [insertDesc]
    by_cases hc : c.created_at ≤ b.created_at
    · rw [if_pos hc]
      simp [List.mem_cons]
    · rw [if_neg hc]
      simp only [List.mem_cons, ih]
      tauto

theorem mem_orderByCreatedDesc {x : Book} : ∀ {l : List Book},
    x ∈ orderByCreatedDesc l ↔ x ∈ l := by
  intro l
  induction l with
  | nil => simp [orderByCreatedDesc]
  | cons c cs ih =>
    rw [orderByCreatedDesc]
    simp only [mem_insertDesc, ih, List.mem_cons]

theorem pairwise_insertDesc {b : Book} {l : List Book}
    (h : l.Pairwise (fun x z => z.created_at ≤ x.created_at)) :
    (insertDesc b l).Pairwise (fun x z => z.created_at ≤ x.created_at) := by
  induction l with
  | nil => simp [insertDesc]
  | cons c cs ih =>
    rw [insertDesc]
    rcases List.pairwise_cons.mp h with ⟨hhead, htail⟩
    by_cases hc : c.created_at ≤ b.created_at
    · rw [if_pos hc]
      refine List.pairwise_cons.mpr ⟨?_, h⟩
      intro z hz
      rcases List.mem_cons.mp hz with rfl | hz
      · exact hc
      · exact le_trans (hhead z hz) hc
    · rw [if_neg hc]
      refine List.pairwise_cons.mpr ⟨?_, ih htail⟩
      intro z hz
      rcases mem_insertDesc.mp hz with rfl | hz
      · exact le_of_lt (lt_of_not_le hc)
      · exact hhead z hz

theorem pairwise_orderByCreatedDesc : ∀ (l : List Book),
    (orderByCreatedDesc l).Pairwise (fun x z => z.created_at ≤ x.created_at) := by
  intro l
  induction l with
  | nil => simp [orderByCreatedDesc]
  | cons c cs ih => exact pairwise_insertDesc ih

/-- Point lookup after `repo_update` replaced the row with the sought id. -/
theorem get_by_id_replace {id : Nat} {b b2 : Book} (hid : b2.book_id = id) :
    ∀ {books : List Book}, get_by_id books id = some b →
      get_by_id (books.map (fun c => if c.book_id == id then b2 else c)) id = some b2 := by
  intro books
  induction books with
  | nil => intro h; simp [get_by_id] at h
  | cons c cs ih =>
    intro h
    by_cases hc : (c.book_id == id) = true
    · simp only [get_by_id, List.map_cons, hc, if_true]
      rw [List.find?_cons_of_pos]
      simp [hid]
    · have h2 : get_by_id cs id = some b := by
        unfold get_by_id at h
        rwa [List.find?_cons_of_neg _ (by simpa using hc)] at h
      have tail := ih h2
      simp only [get_by_id, List.map_cons, hc, if_false]
      unfold get_by_id at tail
      rw [List.find?_cons_of_neg _ (by simpa using hc)]
      exact tail

/-- The lookup predicate holds for what `find?` returns. -/
theorem get_by_id_book_id {books : List Book} {id : Nat} {b : Book}
    (h : get_by_id books id = some b) : b.book_id = id := by
  have := List.find?_some h
  simpa using this

/-- Unfolding of `repo_update` when the row is found. -/
theorem repo_update_of_get {books : List Book} {id : Nat} {b : Book}
    (fields : List FieldAssign) (now : Nat) (hget : get_by_id books id = some b) :
    repo_update books id fields now
      = some (books.map (fun c => if c.book_id == id then
            { applyFields b fields with updated_at := now } else c),
          { applyFields b fields with updated_at := now }) := by
  unfold repo_update
  rw [hget]

/-- Unfolding of `mark_book_as_unavailable` when the row is found. -/
theorem mark_unavailable_of_get {books : List Book} {id : Nat} {b : Book} {now : Nat}
    (hget : get_by_id books id = some b) :
    mark_book_as_unavailable books now id
      = if (!b.available) then Except.error (SvcError.notAvailable id)
        else match repo_update books id [FieldAssign.available false] now with
             | some res => Except.ok (res.1, model_to_response res.2)
             | none => Except.error (SvcError.serviceError "Failed to mark book as unavailable") := by
  unfold mark_book_as_unavailable
  rw [hget]

/-- Unfolding of `mark_book_as_available` when the row is found. -/
theorem mark_available_of_get {books : List Book} {id : Nat} {b : Book} {now : Nat}
    (hget : get_by_id books id = some b) :
    mark_book_as_available books now id
      = match repo_update books id [FieldAssign.available true] now with
        | some res => Except.ok (res.1, model_to_response res.2)
        | none => Except.error (SvcError.serviceError "Failed to mark book as available") := by
  unfold mark_book_as_available
  rw [hget]

/-!  Pointwise facts about the WHERE clause. -/

theorem matchesFilters_title_empty (a g : Option String) (y : Option Int)
    (av : Option Bool) :
    matchesFilters (some "") a g y av = matchesFilters none a g y av := by
  funext b; simp [matchesFilters, truthyStr]

theorem matchesFilters_author_empty (t g : Option String) (y : Option Int)
    (av : Option Bool) :
    matchesFilters t (some "") g y av = matchesFilters t none g y av := by
  funext b; simp [matchesFilters, truthyStr]

theorem matchesFilters_genre_empty (t a : Option String) (y : Option Int)
    (av : Option Bool) :
    matchesFilters t a (some "") y av = matchesFilters t a none y av := by
  funext b; simp [matchesFilters, truthyStr]

theorem matchesFilters_year_zero (t a g : Option String) (av : Option Bool) :
    matchesFilters t a g (some 0) av = matchesFilters t a g none av := by
  funext b; simp [matchesFilters, truthyInt]

/-- Away from the degenerate filter values that Python truthiness drops, the
source WHERE clause coincides with the specification wording. -/
theorem matchesFilters_eq_specMatches {t a g : Option String} {y : Option Int}
    (av : Option Bool) (ht : t ≠ some "") (ha : a ≠ some "") (hg : g ≠ some "")
    (hy : y ≠ some 0) (b : Book) :
    matchesFilters t a g y av b = specMatches t a g y av b := by
  unfold matchesFilters specMatches
  cases t <;> cases a <;> cases g <;> cases y <;>
    simp_all [truthyStr, truthyInt]

/-!  Helper lemmas about the retry loop. -/

/-- One unfolding step of the attempt loop. -/
theorem requestLoop_succ (events : Nat → NetEvent) (retries : Nat) (b : ℚ)
    (attempt f : Nat) :
    requestLoop events retries b attempt (f + 1)
      = match events attempt with
        | .response status body =>
          if isSuccessStatus status then (.ok body, [])
          else if 500 ≤ status && ((attempt : Int) < (retries : Int) - 1) then
            let r := requestLoop events retries b (attempt + 1) f
            (r.1, b * 2 ^ attempt :: r.2)
          else (.err (.httpStatus status), [])
        | .timeout =>
          if (attempt : Int) = (retries : Int) - 1 then (.err .timeout, [])
          else
            let r := requestLoop events retries b (attempt + 1) f
            (r.1, b * 2 ^ attempt :: r.2) := rfl

/-- A status of 500 or more fails the httpx success check. -/
theorem isSuccessStatus_of_ge_500 {st : Nat} (h : 500 ≤ st) :
    isSuccessStatus st = false := by
  simp only [isSuccessStatus, Bool.and_eq_false_iff, decide_eq_false_iff_not]
  omega

/-- A 4xx status fails the httpx success check. -/
theorem isSuccessStatus_of_4xx {st : Nat} (h : 400 ≤ st) :
    isSuccessStatus st = false := by
  simp only [isSuccessStatus, Bool.and_eq_false_iff, decide_eq_false_iff_not]
  omega

/-- When every attempt fails retryably, the loop walks all remaining attempts,
sleeping `backoff * 2 ^ attempt` between them, and surfaces the failure of the
final attempt. -/
theorem requestLoop_all_retryable (events : Nat → NetEvent) (retries : Nat) (b : ℚ) :
    ∀ (fuel attempt : Nat), attempt + fuel = retries → 1 ≤ fuel →
    (∀ i, attempt ≤ i → i < retries → retryableEvent (events i) = true) →
    requestLoop events retries b attempt fuel
      = (finalFailure (events (retries - 1)),
         (List.range' attempt (fuel - 1)).map (fun i => b * 2 ^ i)) := by
  intro fuel
  induction fuel with
  | zero => intro attempt hsum h1; omega
  | succ f ih =>
    intro attempt hsum _ hretry
    have hev := hretry attempt (le_refl _) (by omega)
    rw [requestLoop_succ]
    cases hevc : events attempt with
    | timeout =>
      simp only
      by_cases hlast : (attempt : Int) = (retries : Int) - 1
      · have hf : f = 0 := by omega
        subst hf
        rw [if_pos hlast]
        have hat : retries - 1 = attempt := by omega
        rw [hat, hevc]
        simp [finalFailure, List.range']
      · rw [if_neg hlast]
        have hf : 1 ≤ f := by omega
        obtain ⟨g, rfl⟩ : ∃ g, f = g + 1 := ⟨f - 1, by omega⟩
        have hrec := ih (attempt + 1) (by omega) hf (fun i hi1 hi2 => hretry i (by omega) hi2)
        rw [hrec]
        have hr : List.range' attempt (g + 1)
            = attempt :: List.range' (attempt + 1) g := List.range'_succ attempt g 1
        simp [hr]
    | response st body =>
      have h5 : 500 ≤ st := by
        rw [hevc] at hev
        simpa [retryableEvent] using hev
      simp only [if_neg (by simp [isSuccessStatus_of_ge_500 h5] : ¬ isSuccessStatus st = true)]
      by_cases hlast : (attempt : Int) < (retries : Int) - 1
      · have hf : 1 ≤ f := by omega
        rw [if_pos (by simp [h5, hlast] : (500 ≤ st && ((attempt : Int) < (retries : Int) - 1)) = true)]
        obtain ⟨g, rfl⟩ : ∃ g, f = g + 1 := ⟨f - 1, by omega⟩
        have hrec := ih (attempt + 1) (by omega) hf (fun i hi1 hi2 => hretry i (by omega) hi2)
        rw [hrec]
        have hr : List.range' attempt (g + 1)
            = attempt :: List.range' (attempt + 1) g := List.range'_succ attempt g 1
        simp [hr]
      · have hf : f = 0 := by omega
        subst hf
        rw [if_neg (by simp [hlast] : ¬ (500 ≤ st && ((attempt : Int) < (retries : Int) - 1)) = true)]
        have hat : retries - 1 = attempt := by omega
        rw [hat, hevc]
        simp [finalFailure, List.range']

/-- A non-retryable HTTP error status reached after a run of retryable
failures stops the loop at once: no further sleep, error surfaced. -/
theorem requestLoop_stops_nonretryable (events : Nat → NetEvent) (retries : Nat) (b : ℚ)
    {k : Nat} {c : Nat} {body : String}
    (hk : events k = .response c body) (hc4 : 400 ≤ c) (hc5 : c < 500) :
    ∀ (fuel attempt : Nat), attempt + fuel = retries → attempt ≤ k → k < retries →
    (∀ i, attempt ≤ i → i < k → retryableEvent (events i) = true) →
    requestLoop events retries b attempt fuel
      = (.err (.httpStatus c),
         (List.range' attempt (k - attempt)).map (fun i => b * 2 ^ i)) := by
  intro fuel
  induction fuel with
  | zero => intro attempt hsum hak hkr hpre; omega
  | succ f ih =>
    intro attempt hsum hak hkr hpre
    rw [requestLoop_succ]
    by_cases hhit : attempt = k
    · subst hhit
      rw [hk]
      simp only
      rw [if_neg (by simp [isSuccessStatus_of_4xx hc4] : ¬ isSuccessStatus c = true)]
      rw [if_neg (by simp; omega : ¬ (500 ≤ c && ((attempt : Int) < (retries : Int) - 1)) = true)]
      simp [List.range']
    · have hlt : attempt < k := by omega
      have hev := hpre attempt (le_refl _) hlt
      have hrec := ih (attempt + 1) (by omega) (by omega) hkr
        (fun i hi1 hi2 => hpre i (by omega) hi2)
      have hr : List.range' attempt (k - attempt)
          = attempt :: List.range' (attempt + 1) (k - (attempt + 1)) := by
        have hf2 : k - attempt = (k - (attempt + 1)) + 1 := by omega
        rw [hf2, List.range'_succ attempt (k - (attempt + 1)) 1]
      cases hevc : events attempt with
      | timeout =>
        simp only
        rw [if_neg (by omega : ¬ (attempt : Int) = (retries : Int) - 1)]
        rw [hrec]
        simp [hr]
      | response st body2 =>
        have h5 : 500 ≤ st := by
          rw [hevc] at hev
          simpa [retryableEvent] using hev
        simp only
        rw [if_neg (by simp [isSuccessStatus_of_ge_500 h5] : ¬ isSuccessStatus st = true)]
        rw [if_pos (by simp [h5]; omega : (500 ≤ st && ((attempt : Int) < (retries : Int) - 1)) = true)]
        rw [hrec]
        simp [hr]

/-!  Claim theorems. -/

/-- C1: with a book already holding the supplied ISBN, `create_book` of
book_service.py aborts before anything is staged and the first book remains
the sole holder of the ISBN — but, contrary to the claim, the error raised is
not the book-already-exists conflict: the raise evaluates
`BookAlreadyExistsException(book_data.isbn)` against a constructor whose
required positional parameters are title, author and year, so Python raises
`TypeError` instead. -/
theorem c1_duplicate_isbn_bug :
    create_book_v1 2026 5 42 (.ok []) [isbnHolder] duplicateIsbnRequest
      = (.error (.pyTypeError "BookAlreadyExistsException missing required positional arguments author and year"),
         [isbnHolder])
    ∧ find_by_isbn [isbnHolder] "9785389062560" = some isbnHolder := by
  exact ⟨rfl, rfl⟩

/-- C3: in `create_book` of book_service.py an enrichment timeout, an
enrichment API error and a successful-but-empty enrichment all lead to the
same committed row with the metadata blob absent, and the surfaced outcome is
identical across all enrichment outcomes (so no enrichment error reaches the
caller) — but, contrary to the claim, the create does not succeed: the final
response mapping looks up `BookMapper.to_response`, which does not exist, so
every create surfaces an `AttributeError` after the commit. -/
theorem c3_enrichment_failure_bug :
    create_book_v1 2026 5 42 .timeout [] enrichmentRequest
      = (.error (.pyAttributeError toResponseMissingMsg), [enrichmentStoredRow])
    ∧ create_book_v1 2026 5 42 .apiError [] enrichmentRequest
      = (.error (.pyAttributeError toResponseMissingMsg), [enrichmentStoredRow])
    ∧ create_book_v1 2026 5 42 (.ok []) [] enrichmentRequest
      = (.error (.pyAttributeError toResponseMissingMsg), [enrichmentStoredRow])
    ∧ enrichmentStoredRow.extra = none
    ∧ (create_book_v1 2026 5 42 (.ok [("publisher", "Ace Books")]) [] enrichmentRequest).1
      = .error (.pyAttributeError toResponseMissingMsg) := by
  exact ⟨rfl, rfl, rfl, rfl, rfl⟩

/-- C4: when the target row exists at the lookup but is gone by the time the
repository update runs, `update_book` of book_service.py does not treat the
outcome as not-found: the repository returns `None`, the commit is skipped,
and `BookMapper.to_response(None)` raises `AttributeError` (the mapper has no
such attribute), which the claim's not-found contract does not match. -/
theorem c4_update_race_bug :
    get_by_id [racedBook] 7 = some racedBook
    ∧ get_by_id ([] : List Book) 7 = none
    ∧ update_book_v1 2026 9 [racedBook] [] 7 [FieldAssign.genre "Fantasy"]
      = (.error (.pyAttributeError toResponseMissingMsg), []) := by
  exact ⟨rfl, rfl, rfl⟩

/-- C10: a title, author or genre filter supplied as the empty string, or a
year filter supplied as 0, is Python-falsy, so `find_by_filters` and
`count_by_filters` never add the corresponding WHERE clause: the results and
the count equal those of the same call without that filter. -/
theorem c10_degenerate_filters_omitted :
    ∀ (books : List Book) (t a g : Option String) (y : Option Int) (av : Option Bool)
      (lim off : Nat),
    find_by_filters books (some "") a g y av lim off
      = find_by_filters books none a g y av lim off
    ∧ find_by_filters books t (some "") g y av lim off
      = find_by_filters books t none g y av lim off
    ∧ find_by_filters books t a (some "") y av lim off
      = find_by_filters books t a none y av lim off
    ∧ find_by_filters books t a g (some 0) av lim off
      = find_by_filters books t a g none av lim off
    ∧ count_by_filters books (some "") a g y av = count_by_filters books none a g y av
    ∧ count_by_filters books t (some "") g y av = count_by_filters books t none g y av
    ∧ count_by_filters books t a (some "") y av = count_by_filters books t a none y av
    ∧ count_by_filters books t a g (some 0) av = count_by_filters books t a g none av := by
  intro books t a g y av lim off
  refine ⟨?_, ?_, ?_, ?_, ?_, ?_, ?_, ?_⟩ <;>
    simp [find_by_filters, count_by_filters, matchesFilters_title_empty,
      matchesFilters_author_empty, matchesFilters_genre_empty, matchesFilters_year_zero]

/-- C2: both create paths validate before touching the database or the
enrichment client — the error below is the same whatever the table contents
and whatever the enrichment outcome, and on error no state is returned
(v1 returns the table unchanged).  A year outside the window raises the
year-specific error; with a valid year, a page count of zero or less raises
the pages-specific error (the pages check lives in the v2 service). -/
theorem c2_validation_before_io :
    ∀ (nowYear : Int) (now freshId : Nat) (enrich : EnrichOutcome)
      (books : List Book) (d : BookCreate),
    ((d.year < 1000 ∨ nowYear < d.year) →
       create_book_v2 nowYear now freshId enrich books d = .error (.invalidYear d.year)
       ∧ create_book_v1 nowYear now freshId enrich books d
           = (.error (.invalidYear d.year), books))
    ∧ (1000 ≤ d.year → d.year ≤ nowYear → d.pages ≤ 0 →
       create_book_v2 nowYear now freshId enrich books d = .error (.invalidPages d.pages)) := by
  intro nowYear now freshId enrich books d
  constructor
  · intro h
    constructor
    · unfold create_book_v2
      rw [if_pos h]
    · unfold create_book_v1
      rw [if_pos h]
  · intro h1 h2 hp
    unfold create_book_v2
    rw [if_neg (by omega), if_pos hp]

/-- C2 witness: creating with year 2027 under current year 2026 fails with the
year error in both paths; creating with page count 0 fails with the pages
error; in each case with a concrete table and enrichment outcome. -/
theorem c2_witness :
    create_book_v2 2026 1 2 .timeout [bookA] futureYearRequest
      = .error (.invalidYear 2027)
    ∧ create_book_v1 2026 1 2 .timeout [bookA] futureYearRequest
      = (.error (.invalidYear 2027), [bookA])
    ∧ create_book_v2 2026 1 2 .timeout [bookA] zeroPagesRequest
      = .error (.invalidPages 0) := by
  have h1 := (c2_validation_before_io 2026 1 2 .timeout [bookA] futureYearRequest).1
    (by norm_num [futureYearRequest])
  have h2 := (c2_validation_before_io 2026 1 2 .timeout [bookA] zeroPagesRequest).2
    (by norm_num [zeroPagesRequest]) (by norm_num [zeroPagesRequest])
    (by norm_num [zeroPagesRequest])
  exact ⟨h1.1, h1.2, h2⟩

/-- C5: in `BaseApiClient.request`, timeouts and 500-or-higher statuses are
retried up to the attempt bound with a sleep of `backoff * 2 ^ attempt`
between attempts, the failure of the final attempt is surfaced; a 4xx error
response is never retried — it is surfaced at once, with no further sleep,
whatever the later attempts would have returned. -/
theorem c5_retry_policy (events : Nat → NetEvent) (retries : Nat) (b : ℚ)
    (hr : 1 ≤ retries) :
    ((∀ i, i < retries → retryableEvent (events i) = true) →
       request events retries b
         = (finalFailure (events (retries - 1)),
            (List.range (retries - 1)).map (fun i => b * 2 ^ i)))
    ∧ (∀ k c body, k < retries → (∀ i, i < k → retryableEvent (events i) = true) →
         events k = .response c body → 400 ≤ c → c < 500 →
         request events retries b
           = (.err (.httpStatus c), (List.range k).map (fun i => b * 2 ^ i))) := by
  constructor
  · intro hall
    unfold request
    rw [requestLoop_all_retryable events retries b retries 0 (by omega) hr
      (fun i hi1 hi2 => hall i hi2)]
    rw [List.range_eq_range']
  · intro k c body hk hpre hev hc4 hc5
    unfold request
    rw [requestLoop_stops_nonretryable events retries b hev hc4 hc5 retries 0 (by omega)
      (by omega) hk (fun i hi1 hi2 => hpre i hi2)]
    simp [List.range_eq_range']

/-- C5 witness: with the OpenLibrary client settings (2 attempts, backoff one
half), an always-timing-out endpoint yields the timeout error after one sleep
of one half second, and an immediate 404 yields the HTTP error with no retry
and no sleep. -/
theorem c5_witness :
    request (fun _ => NetEvent.timeout) 2 (1 / 2) = (.err .timeout, [1 / 2])
    ∧ request (fun i => if i = 0 then NetEvent.response 404 "not found" else NetEvent.timeout)
        2 (1 / 2)
      = (.err (.httpStatus 404), []) := by
  constructor
  · have h := (c5_retry_policy (fun _ => NetEvent.timeout) 2 (1 / 2) (by norm_num)).1
      (fun i hi => rfl)
    rw [h]
    norm_num [finalFailure, List.range_succ]
  · have h := (c5_retry_policy
        (fun i => if i = 0 then NetEvent.response 404 "not found" else NetEvent.timeout)
        2 (1 / 2) (by norm_num)).2 0 404 "not found" (by norm_num)
      (fun i hi => absurd hi (by omega)) rfl (by norm_num) (by norm_num)
    rw [h]
    simp

/-- C6: away from the degenerate filter values, the repository query matches
exactly the specification predicate (case-insensitive substring on title and
author, exact match on genre, year and availability), paginates the
descending-by-creation-time ordering with offset then limit, and the count
query counts the matching rows with no pagination; every result list is
sorted by creation time descending; and on the five books A..E with no
filters, limit 2 and offset 0 return E then D while the count is 5. -/
theorem c6_filters_pagination_count :
    (∀ (books : List Book) (t a g : Option String) (y : Option Int) (av : Option Bool)
       (lim off : Nat), t ≠ some "" → a ≠ some "" → g ≠ some "" → y ≠ some 0 →
       find_by_filters books t a g y av lim off
         = ((orderByCreatedDesc (books.filter (specMatches t a g y av))).drop off).take lim
       ∧ count_by_filters books t a g y av = (books.filter (specMatches t a g y av)).length)
    ∧ (∀ (books : List Book) (t a g : Option String) (y : Option Int) (av : Option Bool)
       (lim off : Nat),
       (find_by_filters books t a g y av lim off).Pairwise
         (fun x z => z.created_at ≤ x.created_at))
    ∧ find_by_filters fiveBooks none none none none none 2 0 = [bookE, bookD]
    ∧ count_by_filters fiveBooks none none none none none = 5 := by
  refine ⟨?_, ?_, ?_, ?_⟩
  · intro books t a g y av lim off ht ha hg hy
    have hfe : books.filter (matchesFilters t a g y av)
        = books.filter (specMatches t a g y av) :=
      List.filter_congr (fun b _ => matchesFilters_eq_specMatches av ht ha hg hy b)
    constructor
    · unfold find_by_filters
      rw [hfe]
    · unfold count_by_filters
      rw [hfe]
  · intro books t a g y av lim off
    unfold find_by_filters
    exact List.Pairwise.sublist (List.take_sublist _ _)
      (List.Pairwise.sublist (List.drop_sublist _ _) (pairwise_orderByCreatedDesc _))
  · rfl
  · rfl

/-- C6 witness: a title filter "e" (case-insensitively matched) instantiates
the general statement on the five-book table. -/
theorem c6_witness :
    find_by_filters fiveBooks (some "e") none none none none 20 0
      = ((orderByCreatedDesc (fiveBooks.filter
          (specMatches (some "e") none none none none))).drop 0).take 20
    ∧ count_by_filters fiveBooks (some "e") none none none none
      = (fiveBooks.filter (specMatches (some "e") none none none none)).length := by
  exact c6_filters_pagination_count.1 fiveBooks (some "e") none none none none 20 0
    (by simp) (by simp) (by simp) (by simp)

/-- C7: for an existing book, `mark_book_as_unavailable` succeeds exactly when
the book is available, and on a book it just made unavailable a second call
raises the not-available conflict carrying the id; when the book is already
unavailable it raises that conflict at once; `mark_book_as_available` succeeds
unconditionally on an existing book. -/
theorem c7_availability_toggle :
    ∀ (books : List Book) (id : Nat) (b : Book) (now now2 : Nat),
    get_by_id books id = some b →
    ((b.available = true →
       ∃ res, mark_book_as_unavailable books now id = .ok res
         ∧ mark_book_as_unavailable res.1 now2 id = .error (.notAvailable id))
     ∧ (b.available = false →
         mark_book_as_unavailable books now id = .error (.notAvailable id))
     ∧ ∃ res2, mark_book_as_available books now id = .ok res2) := by
  intro books id b now now2 hget
  have hid : b.book_id = id := get_by_id_book_id hget
  refine ⟨?_, ?_, ?_⟩
  · intro hav
    set b2 : Book := { applyFields b [FieldAssign.available false] with
      updated_at := now } with hb2def
    have hb2id : b2.book_id = id := by
      simpa [hb2def, applyFields, setField] using hid
    have h1 : mark_book_as_unavailable books now id
        = .ok (books.map (fun c => if c.book_id == id then b2 else c),
            model_to_response b2) := by
      rw [mark_unavailable_of_get hget]
      rw [if_neg (by simp [hav])]
      rw [repo_update_of_get _ _ hget]
    refine ⟨_, h1, ?_⟩
    have hget2 : get_by_id (books.map (fun c => if c.book_id == id then b2 else c)) id
        = some b2 := get_by_id_replace hb2id hget
    show mark_book_as_unavailable (books.map (fun c => if c.book_id == id then b2 else c))
      now2 id = .error (.notAvailable id)
    rw [mark_unavailable_of_get hget2]
    rw [if_pos (by simp [hb2def, applyFields, setField])]
  · intro hav
    rw [mark_unavailable_of_get hget]
    rw [if_pos (by simp [hav])]
  · rw [mark_available_of_get hget, repo_update_of_get _ _ hget]
    exact ⟨_, rfl⟩

/-- C7 witness: on a one-book table with the book available, the first toggle
to unavailable succeeds and the second raises the not-available conflict. -/
theorem c7_witness :
    get_by_id [bookA] 1 = some bookA
    ∧ ∃ res, mark_book_as_unavailable [bookA] 9 1 = .ok res
        ∧ mark_book_as_unavailable res.1 11 1 = .error (.notAvailable 1) := by
  have h := c7_availability_toggle [bookA] 1 bookA 9 11 rfl
  exact ⟨rfl, h.1 rfl⟩

/-- C8: a repository update supplying only the genre changes genre alone —
every other column, the id and the creation timestamp are unchanged, the
modification timestamp becomes the update instant (hence advances whenever
that instant is later) — and appending an unknown field name to any update
changes nothing: `hasattr` fails for it and it is silently skipped. -/
theorem c8_partial_update_frame :
    (∀ (books : List Book) (id : Nat) (b : Book) (now : Nat) (g : String),
       get_by_id books id = some b → b.updated_at < now →
       ∃ res, repo_update books id [FieldAssign.genre g] now = some res
         ∧ res.2.genre = g
         ∧ res.2.title = b.title ∧ res.2.author = b.author ∧ res.2.year = b.year
         ∧ res.2.pages = b.pages ∧ res.2.isbn = b.isbn
         ∧ res.2.description = b.description ∧ res.2.available = b.available
         ∧ res.2.extra = b.extra ∧ res.2.book_id = b.book_id
         ∧ res.2.created_at = b.created_at
         ∧ res.2.updated_at = now ∧ b.updated_at < res.2.updated_at)
    ∧ (∀ (books : List Book) (id : Nat) (fields : List FieldAssign) (k : String)
        (now : Nat),
       repo_update books id (fields ++ [FieldAssign.unknown k]) now
         = repo_update books id fields now) := by
  constructor
  · intro books id b now g hget hlt
    refine ⟨_, by unfold repo_update; rw [hget], rfl, rfl, rfl, rfl, rfl, rfl, rfl,
      rfl, rfl, rfl, rfl, rfl, hlt⟩
  · intro books id fields k now
    unfold repo_update
    cases hget : get_by_id books id with
    | none => rfl
    | some b =>
      have happ : applyFields b (fields ++ [FieldAssign.unknown k])
          = applyFields b fields := by
        unfold applyFields
        rw [List.foldl_append]
        rfl
      simp [happ]

/-- C8 witness: updating book A (last modified at 1) with only a genre at
instant 9 keeps title and creation timestamp and advances the modification
timestamp to 9. -/
theorem c8_witness :
    get_by_id [bookA] 1 = some bookA ∧ bookA.updated_at < 9
    ∧ ∃ res, repo_update [bookA] 1 [FieldAssign.genre "Fantasy"] 9 = some res
        ∧ res.2.genre = "Fantasy" ∧ res.2.title = bookA.title
        ∧ res.2.created_at = bookA.created_at ∧ res.2.updated_at = 9
        ∧ bookA.updated_at < res.2.updated_at := by
  obtain ⟨res, h1, h2, h3, _, _, _, _, _, _, _, _, h12, h13, h14⟩ :=
    c8_partial_update_frame.1 [bookA] 1 bookA 9 "Fantasy" rfl (by decide)
  exact ⟨rfl, by decide, res, h1, h2, h3, h12, h13, h14⟩

/-- C9 counterexample: the table holds "War and Peace" by Leo Tolstoy (1869);
a create request titled "The War and Peace Anthology" by the same author for
the same year contains that existing title as a case-insensitive substring,
yet the v2 create is not rejected — it succeeds, because the ilike needle is
the request title, which is not a substring of the stored title. -/
theorem c9_counterexample :
    ilikeContains containingTitleRequest.title warAndPeace.title = true
    ∧ containingTitleRequest.author = warAndPeace.author
    ∧ containingTitleRequest.year = warAndPeace.year
    ∧ exceptOk (create_book_v2 2026 10 7 (.ok []) [warAndPeace] containingTitleRequest)
      = true := by
  refine ⟨by decide, rfl, rfl, by decide⟩

/-- C9 amended: the duplicate title+author+year check matches by
case-insensitive substring in the opposite direction — a create request whose
title and author are each contained case-insensitively in an existing book's
title and author, with the same year, is rejected with the already-exists
conflict (even when the fields are not equal). -/
theorem c9_substring_duplicate_check :
    ∀ (nowYear : Int) (now freshId : Nat) (enrich : EnrichOutcome)
      (books : List Book) (d : BookCreate) (ex : Book),
    ex ∈ books → 1000 ≤ d.year → d.year ≤ nowYear → 0 < d.pages →
    ilikeContains ex.title d.title = true → ilikeContains ex.author d.author = true →
    ex.year = d.year →
    create_book_v2 nowYear now freshId enrich books d
      = .error (.alreadyExists d.title d.author d.year) := by
  intro nowYear now freshId enrich books d ex hmem hy1 hy2 hp ht ha hyr
  have hmatch : matchesFilters (some d.title) (some d.author) none (some d.year) none ex
      = true := by
    unfold matchesFilters
    simp only [Option.getD_some]
    rw [Bool.and_eq_true, Bool.and_eq_true, Bool.and_eq_true, Bool.and_eq_true]
    refine ⟨⟨⟨⟨?_, ?_⟩, ?_⟩, ?_⟩, ?_⟩
    · split
      · exact ht
      · rfl
    · split
      · exact ha
      · rfl
    · rfl
    · split
      · simp [hyr]
      · rfl
    · rfl
  have hmem2 : ex ∈ books.filter
      (matchesFilters (some d.title) (some d.author) none (some d.year) none) :=
    List.mem_filter.mpr ⟨hmem, hmatch⟩
  have hmemo : ex ∈ orderByCreatedDesc (books.filter
      (matchesFilters (some d.title) (some d.author) none (some d.year) none)) :=
    mem_orderByCreatedDesc.mpr hmem2
  obtain ⟨hd, tl, heq⟩ := List.exists_cons_of_ne_nil (List.ne_nil_of_mem hmemo)
  have hfind : find_by_filters books (some d.title) (some d.author) none (some d.year)
      none 1 0 = [hd] := by
    unfold find_by_filters
    rw [heq, List.drop_zero]
    rfl
  unfold create_book_v2
  rw [if_neg (by omega), if_neg (by omega), hfind]
  simp

/-- C9 witness: a request titled "war AND Peace" by "Tolstoy" (each contained
case-insensitively in the stored fields) for 1869 is rejected with the
already-exists conflict. -/
theorem c9_witness :
    warAndPeace ∈ [warAndPeace]
    ∧ ilikeContains warAndPeace.title containedTitleRequest.title = true
    ∧ ilikeContains warAndPeace.author containedTitleRequest.author = true
    ∧ create_book_v2 2026 10 7 (.ok []) [warAndPeace] containedTitleRequest
      = .error (.alreadyExists "war AND Peace" "Tolstoy" 1869) := by
  have h := c9_substring_duplicate_check 2026 10 7 (.ok []) [warAndPeace]
    containedTitleRequest warAndPeace (by simp) (by decide) (by decide) (by decide)
    (by decide) (by decide) rfl
  exact ⟨by simp, by decide, by decide, h⟩

end LibraryCatalog
